import Mathlib

/-!
Shallow embedding of the `injector` binary-patching library
(include/injector/injector.hpp, unprotect.hpp, pointer/pointer.hpp,
pointer/raw_ptr.hpp, pointer/integral.hpp, detail/macros.hpp).

The embedding targets the library's 32-bit x86 configuration: `uintptr_t`
is 4 bytes (the headers statically assert `sizeof(uintptr_t) ==
sizeof(void*)` and the scan default is tuned to x86 instruction encoding),
so pointer-sized values are naturals reduced modulo `2 ^ 32` and memory is
a byte-addressed map `Nat → Nat` whose cells are read modulo `256`
(a byte load sees 8 bits).  `raw_ptr` arithmetic (`operator+`, `operator++`)
is unsigned machine arithmetic, hence modulo `2 ^ 32`.

The protection layer (`scoped_unprotect`, `unprotect`, `reprotect`) calls
the OS through `raw_ptr::unprotect` / `raw_ptr::reprotect`
(`VirtualProtect`).  The OS is embedded as an oracle `OSModel` giving each
unprotect call its success flag and previous-protection token, and each
operation additionally returns the list of OS calls it performs
(`OSEvent`), so that "performs no OS call" and "reprotects at most once"
are statable.  Page protection changes never alter byte contents, so the
data-memory semantics of `read`/`write`/`adjust` does not depend on the
`vp` flag; `vp` is kept in the signatures as in the source.
-/

/-- Bytes of `uintptr_t` on the embedded 32-bit target. -/
def PTR_BYTES : Nat := 4

/-- One beyond the largest `uintptr_t` value: `2 ^ 32`. -/
def PTR_MOD : Nat := 4294967296

/-- Byte-addressed data memory; a cell holds a byte (read modulo 256). -/
def Mem : Type := Nat → Nat

/-- Little-endian pointer-sized load at byte address `a`, as
`raw_ptr::read<uintptr_t>` performs on x86: assemble the 4 bytes at
`a, a+1, a+2, a+3`. -/
def read_uintptr (m : Mem) (a : Nat) : Nat :=
  m a % 256 + 256 * (m (a + 1) % 256) + 65536 * (m (a + 2) % 256)
    + 16777216 * (m (a + 3) % 256)

/-- Little-endian pointer-sized store of `v` at byte address `a`, as
`raw_ptr::write<uintptr_t>` performs on x86: the 4 bytes at
`a, a+1, a+2, a+3` become the bytes of `v`; every other cell unchanged. -/
def write_uintptr (m : Mem) (a : Nat) (v : Nat) : Mem := fun x =>
  if x = a then v % 256
  else if x = a + 1 then v / 256 % 256
  else if x = a + 2 then v / 65536 % 256
  else if x = a + 3 then v / 16777216 % 256
  else m x

/-- `_INJECTOR_OP_MAXSIZE` from detail/macros.hpp: the maximum size of a
single x86 machine instruction, 15 bytes. -/
def _INJECTOR_OP_MAXSIZE : Nat := 15

/-- The default value of `adjust`'s `max_search` parameter
(injector.hpp line 154): `_INJECTOR_OP_MAXSIZE - 3`. -/
def adjust_default_max_search : Nat := _INJECTOR_OP_MAXSIZE - 3

/-- The value read at `v` lies in the half-open source range
`[b, e)` — the branch condition of `adjust`'s loop
(`value >= uintptr_t(begin) && value < uintptr_t(end)`). -/
def in_old_range (b e v : Nat) : Prop := b ≤ v ∧ v < e

instance (b e v : Nat) : Decidable (in_old_range b e v) :=
  inferInstanceAs (Decidable (b ≤ v ∧ v < e))

/-- The loop of `adjust` (injector.hpp lines 169-178), unrolled on the
remaining iteration count `fuel = ptr_end - ptr` (inside the loop `ptr`
only grows by 1 and stays below `ptr_end < 2 ^ 32`, so no wrap occurs and
the loop runs exactly `fuel` times unless it returns early).  At each
position: pointer-sized read; on a range hit, write the rebased value back
at the same position and return it; otherwise step one byte right.
Falling out of the loop returns `nullptr`, i.e. the `raw_ptr` whose
address is 0. -/
def adjust_scan (b e nb : Nat) : Mem → Nat → Nat → Mem × Nat
  | m, _, 0 => (m, 0)
  | m, ptr, fuel + 1 =>
    let value := read_uintptr m ptr
    if in_old_range b e value then
      let replace := (nb + (value - b)) % PTR_MOD
      (write_uintptr m ptr replace, replace)
    else
      adjust_scan b e nb m (ptr + 1) fuel

/-- `injector::adjust` (injector.hpp lines 151-181) over the byte-memory
model.  All address-like arguments pass through `into_ptr` /
`faster_ptr`, i.e. become `raw_ptr` machine words (reduced mod `2 ^ 32`);
`ptr_end = ptr + max_search` is `raw_ptr::operator+`, also mod `2 ^ 32`.
The loop `for(; ptr < ptr_end; ++ptr)` runs `ptr_end - ptr` times
(0 when the sum wrapped below `ptr`), captured by `adjust_scan`'s fuel.
The returned `Nat` is the address of the returned
`MemoryPointerN::fast_ptr`; `return nullptr` yields address 0.
`vp` only toggles the protection guards around the inner `read`/`write`
calls and does not affect byte contents. -/
def adjust (m : Mem) (addr old_begin old_end new_begin max_search : Nat)
    (vp : Bool) : Mem × Nat :=
  let ptr := addr % PTR_MOD
  let ptr_end := (addr + max_search) % PTR_MOD
  let _ := vp
  adjust_scan (old_begin % PTR_MOD) (old_end % PTR_MOD) (new_begin % PTR_MOD)
    m ptr (ptr_end - ptr)

/-- A call of `adjust` that omits `max_search`: the C++ default argument
`_INJECTOR_OP_MAXSIZE - 3` is supplied. -/
def adjust_default (m : Mem) (addr old_begin old_end new_begin : Nat)
    (vp : Bool) : Mem × Nat :=
  adjust m addr old_begin old_end new_begin adjust_default_max_search vp

/-- The all-zero memory, used by the concrete instances below. -/
def mzero : Mem := fun _ => 0

/-- Test memory for C1 (the spec's planted-pointer example): the value
`old_begin + 0xC = 0x70000C` planted at byte offset 5 of the window
starting at `0x500000`. -/
def memC1 : Mem := write_uintptr mzero (0x500000 + 5) 0x70000C

/-- Test memory for C2 (the spec's first-match example): matching values
planted at byte offsets 2 and 9 of the window starting at `0x500000`. -/
def memC2 : Mem :=
  write_uintptr (write_uintptr mzero (0x500000 + 9) 0x700020)
    (0x500000 + 2) 0x700010

/-- Test memory for the C3 counterexample: the value `0x700000` (equal to
`old_begin`) planted right at `0x500000`, so that with `new_begin = 0` the
replacement value is the null address 0. -/
def memC3 : Mem := write_uintptr mzero 0x500000 0x700000

/-- The OS page-protection oracle behind `raw_ptr::unprotect` /
`raw_ptr::reprotect` (raw_ptr.hpp lines 76-86, `VirtualProtect`):
`unprot addr size` gives the success flag and the previous-protection
token the call reports, `reprot addr size oldprot` the success flag of the
restoring call. -/
structure OSModel where
  unprot : Nat → Nat → Bool × Nat
  reprot : Nat → Nat → Nat → Bool

/-- One OS protection call, recorded so that "no OS call is performed" and
"reprotects at most once" are statable. -/
inductive OSEvent where
  | unprotectCall (addr size : Nat)
  | reprotectCall (addr size oldprot : Nat)
deriving DecidableEq, Repr

/-- The state of a `scoped_unprotect<raw_ptr>` guard (unprotect.hpp lines
95-99): the guarded address (already in `fast_ptr` form, here its machine
address), the guarded size (`size = 0` means the guard holds nothing and
`addr`/`oldprot` are to be ignored) and the stored previous-protection
token. -/
structure scoped_unprotect where
  addr : Nat
  size : Nat
  oldprot : Nat
deriving DecidableEq, Repr

/-- `scoped_unprotect::unprotected` (unprotect.hpp lines 69-72):
`return this->size != 0;`. -/
def scoped_unprotect.unprotected (g : scoped_unprotect) : Bool :=
  g.size != 0

/-- The constructor `scoped_unprotect::scoped_unprotect(addr, size)`
(unprotect.hpp lines 30-37): `addr` is normalized (identity for
`raw_ptr`), and `size != 0 && this->addr.unprotect(size, &this->oldprot)`
short-circuits — with `size = 0` the OS is never called; with `size ≠ 0`
one unprotect call happens and the guard keeps `size` only on success.
Returns the constructed guard and the OS calls performed. -/
def scoped_unprotect.construct (os : OSModel) (addr size : Nat) :
    scoped_unprotect × List OSEvent :=
  if size ≠ 0 then
    let r := os.unprot addr size
    if r.1 then
      (⟨addr, size, r.2⟩, [OSEvent.unprotectCall addr size])
    else
      (⟨addr, 0, r.2⟩, [OSEvent.unprotectCall addr size])
  else
    (⟨addr, 0, 0⟩, [])

/-- `scoped_unprotect::restore` (unprotect.hpp lines 77-84): if the guard
holds a region, reprotect it with the stored token and zero `size`;
otherwise do nothing.  Returns the new guard state and the OS calls
performed.  This is the spec's `release()`. -/
def scoped_unprotect.restore (g : scoped_unprotect) :
    scoped_unprotect × List OSEvent :=
  if g.unprotected then
    (⟨g.addr, 0, g.oldprot⟩, [OSEvent.reprotectCall g.addr g.size g.oldprot])
  else
    (g, [])

/-- The destructor `scoped_unprotect::~scoped_unprotect` (unprotect.hpp
lines 40-43): `this->restore();` and the object ends; only the OS calls
remain observable. -/
def scoped_unprotect.destruct (g : scoped_unprotect) : List OSEvent :=
  g.restore.2

/-- `scoped_unprotect::forget` (unprotect.hpp lines 90-93):
`this->size = 0;` — no OS call. -/
def scoped_unprotect.forget (g : scoped_unprotect) : scoped_unprotect :=
  ⟨g.addr, 0, g.oldprot⟩

/-- The move assignment `operator=(scoped_unprotect&&)` (unprotect.hpp
lines 59-66): the destination first runs `this->restore()`, then copies
`addr`, `size`, `oldprot` from the source, then zeroes the source's
`size`.  Returns (new destination, moved-from source, OS calls). -/
def scoped_unprotect.move_assign (dst src : scoped_unprotect) :
    scoped_unprotect × scoped_unprotect × List OSEvent :=
  let r := dst.restore
  (⟨src.addr, src.size, src.oldprot⟩, ⟨src.addr, 0, src.oldprot⟩, r.2)

/-- The move constructor (unprotect.hpp lines 52-56): `this->size = 0;`
(the other members start indeterminate, modelled 0 — a size-0 guard never
reads them) followed by the move assignment. -/
def scoped_unprotect.move_construct (src : scoped_unprotect) :
    scoped_unprotect × scoped_unprotect × List OSEvent :=
  scoped_unprotect.move_assign ⟨0, 0, 0⟩ src

/-- What a call of the free function `injector::unprotect(addr, size,
oldprot)` leaves behind: the value stored through the `oldprot` output
reference, and the value the call returns.  The function is declared
`bool` but its body (unprotect.hpp lines 126-130) contains no return
statement — control falls off the end, so no defined value is returned:
`ret` is `none`. -/
structure free_call_result where
  oldprot : Nat
  ret : Option Bool
deriving DecidableEq, Repr

/-- The free function `injector::unprotect(addr, size, oldprot)`
(unprotect.hpp lines 126-130): normalizes `addr` and calls
`raw_ptr::unprotect(size, &oldprot)`, storing the OS token into `oldprot`;
the body has no return statement, so the declared `bool` result is
undefined (`ret = none`).  Also returns the OS calls performed. -/
def free_unprotect (os : OSModel) (addr size : Nat) :
    free_call_result × List OSEvent :=
  let r := os.unprot addr size
  (⟨r.2, none⟩, [OSEvent.unprotectCall addr size])

/-- The free function `injector::reprotect(addr, size, oldprot)`
(unprotect.hpp lines 141-145): normalizes `addr` and calls
`raw_ptr::reprotect(size, oldprot)`; the body has no return statement, so
the declared `bool` result is undefined (`none`).  Also returns the OS
calls performed. -/
def free_reprotect (os : OSModel) (addr size oldprot : Nat) :
    Option Bool × List OSEvent :=
  let _ := os.reprot addr size oldprot
  (none, [OSEvent.reprotectCall addr size oldprot])

/-- A concrete OS oracle for the witnesses: unprotection succeeds exactly
at even addresses, the reported previous-protection token is
`addr + size`, reprotection always succeeds. -/
def os_test : OSModel :=
  ⟨fun a s => (decide (a % 2 = 0), a + s), fun _ _ _ => true⟩

/-- The canonical addressable handle `injector::raw_ptr` (raw_ptr.hpp
lines 30-186): a value type holding one machine address (the union's
integer view `a`). -/
structure raw_ptr where
  a : Nat
deriving DecidableEq, Repr

/-- The identity conversion rule `conv_pointer<raw_ptr>::convert`
(raw_ptr.hpp lines 188-196): `return x;`. -/
def conv_pointer_raw_ptr_convert (x : raw_ptr) : raw_ptr := x

/-- `injector::into_ptr` (pointer.hpp lines 58-62) instantiated at
`raw_ptr`: `conv_pointer<raw_ptr>::convert(x)`. -/
def into_ptr (x : raw_ptr) : raw_ptr := conv_pointer_raw_ptr_convert x

/-- `injector::faster_ptr` (pointer.hpp lines 46-50) instantiated at
`raw_ptr`.  The source body reads `conv_pointer<T>::convert(ptr)` where
`T` is not declared (the template parameter is named `MemoryPointer`), so
every instantiation of the function as written is ill-formed; what the
body evidently means — and what its doc comment, its callers (`adjust`,
`scoped_unprotect`) and `conv_pointer<raw_ptr>` require — is
`conv_pointer<MemoryPointer>::convert(ptr)`, embedded here. -/
def faster_ptr (x : raw_ptr) : raw_ptr := conv_pointer_raw_ptr_convert x

/-! ## Lemmas about the byte-memory primitives and the scan loop -/

/-- Reading back a pointer-sized store at the position it was stored
yields the stored value reduced to a machine word. -/
theorem read_write_uintptr (m : Mem) (a v : Nat) :
    read_uintptr (write_uintptr m a v) a = v % PTR_MOD := by
  have h0 : write_uintptr m a v a = v % 256 := by
    simp only [write_uintptr]
    split_ifs <;> omega
  have h1 : write_uintptr m a v (a + 1) = v / 256 % 256 := by
    simp only [write_uintptr]
    split_ifs <;> omega
  have h2 : write_uintptr m a v (a + 2) = v / 65536 % 256 := by
    simp only [write_uintptr]
    split_ifs <;> omega
  have h3 : write_uintptr m a v (a + 3) = v / 16777216 % 256 := by
    simp only [write_uintptr]
    split_ifs <;> omega
  rw [read_uintptr, h0, h1, h2, h3]
  have hM : PTR_MOD = 4294967296 := rfl
  rw [hM]
  omega

/-- A pointer-sized store changes no byte outside its 4 cells. -/
theorem write_uintptr_frame (m : Mem) (a v x : Nat)
    (h : x < a ∨ a + 3 < x) : write_uintptr m a v x = m x := by
  simp only [write_uintptr]
  rw [if_neg (by omega), if_neg (by omega), if_neg (by omega), if_neg (by omega)]

/-- One unfolding of the scan loop. -/
theorem adjust_scan_succ (b e nb : Nat) (m : Mem) (ptr fuel : Nat) :
    adjust_scan b e nb m ptr (fuel + 1) =
      if in_old_range b e (read_uintptr m ptr) then
        (write_uintptr m ptr ((nb + (read_uintptr m ptr - b)) % PTR_MOD),
         (nb + (read_uintptr m ptr - b)) % PTR_MOD)
      else adjust_scan b e nb m (ptr + 1) fuel := rfl

/-- When no scanned position reads a value in the source range, the loop
leaves memory untouched and falls through to `return nullptr`. -/
theorem adjust_scan_no_match (b e nb : Nat) (m : Mem) (ptr fuel : Nat)
    (h : ∀ i, i < fuel → ¬ in_old_range b e (read_uintptr m (ptr + i))) :
    adjust_scan b e nb m ptr fuel = (m, 0) := by
  induction fuel generalizing ptr with
  | zero => rfl
  | succ f ih =>
    rw [adjust_scan_succ, if_neg (by simpa using h 0 (Nat.succ_pos f))]
    refine ih (ptr + 1) fun i hi => ?_
    rw [show ptr + 1 + i = ptr + (i + 1) by omega]
    exact h (i + 1) (by omega)

/-- When position `ptr + j` is the leftmost scanned position whose read
lies in the source range, the loop stops there, stores the rebased value
at that very position and returns it. -/
theorem adjust_scan_found (b e nb : Nat) (m : Mem) (ptr fuel j : Nat)
    (hj : j < fuel)
    (hmat : in_old_range b e (read_uintptr m (ptr + j)))
    (hfirst : ∀ i, i < j → ¬ in_old_range b e (read_uintptr m (ptr + i))) :
    adjust_scan b e nb m ptr fuel =
      (write_uintptr m (ptr + j) ((nb + (read_uintptr m (ptr + j) - b)) % PTR_MOD),
       (nb + (read_uintptr m (ptr + j) - b)) % PTR_MOD) := by
  induction j generalizing ptr fuel with
  | zero =>
    obtain ⟨f, rfl⟩ : ∃ f, fuel = f + 1 := ⟨fuel - 1, by omega⟩
    rw [adjust_scan_succ, if_pos (by simpa using hmat)]
    simp
  | succ k ih =>
    obtain ⟨f, rfl⟩ : ∃ f, fuel = f + 1 := ⟨fuel - 1, by omega⟩
    rw [adjust_scan_succ, if_neg (by simpa using hfirst 0 (Nat.succ_pos k))]
    rw [show ptr + (k + 1) = ptr + 1 + k by omega] at hmat ⊢
    refine ih (ptr + 1) f (by omega) hmat fun i hi => ?_
    rw [show ptr + 1 + i = ptr + (i + 1) by omega]
    exact hfirst (i + 1) (by omega)

/-- With every argument a representable machine word and the window not
wrapping the address space, `adjust` is the scan over exactly
`max_search` positions starting at `addr`. -/
theorem adjust_eq_scan (m : Mem) (addr old_begin old_end new_begin max_search : Nat)
    (vp : Bool)
    (hb : old_begin < PTR_MOD) (he : old_end < PTR_MOD) (hn : new_begin < PTR_MOD)
    (hw : addr + max_search < PTR_MOD) :
    adjust m addr old_begin old_end new_begin max_search vp =
      adjust_scan old_begin old_end new_begin m addr max_search := by
  show adjust_scan (old_begin % PTR_MOD) (old_end % PTR_MOD) (new_begin % PTR_MOD)
      m (addr % PTR_MOD) ((addr + max_search) % PTR_MOD - addr % PTR_MOD) = _
  rw [Nat.mod_eq_of_lt hb, Nat.mod_eq_of_lt he, Nat.mod_eq_of_lt hn,
      Nat.mod_eq_of_lt (show addr < PTR_MOD by omega),
      Nat.mod_eq_of_lt hw, Nat.add_sub_cancel_left]

/-! ## The claims -/

/-- C1: at the first byte position of the scan window whose pointer-sized
read `value` satisfies `old_begin ≤ value < old_end` (upper bound
exclusive: a value equal to `old_end` never satisfies the loop's range
test), `adjust` writes `new_begin + (value - old_begin)` back at that
same byte position and returns that replacement value.  Stated for
machine-word arguments, a scan window that does not wrap the address
space, and a destination range that stays representable (so the rebased
value is the exact natural `new_begin + (value - old_begin)`). -/
theorem adjust_rewrites_first_match
    (m : Mem) (addr old_begin old_end new_begin max_search : Nat) (vp : Bool)
    (hb : old_begin < PTR_MOD) (he : old_end < PTR_MOD) (hn : new_begin < PTR_MOD)
    (hw : addr + max_search < PTR_MOD)
    (hrep : new_begin + (old_end - old_begin) ≤ PTR_MOD)
    (j : Nat) (hj : j < max_search)
    (hmat : in_old_range old_begin old_end (read_uintptr m (addr + j)))
    (hfirst : ∀ i, i < j → ¬ in_old_range old_begin old_end (read_uintptr m (addr + i))) :
    (adjust m addr old_begin old_end new_begin max_search vp).2
        = new_begin + (read_uintptr m (addr + j) - old_begin)
      ∧ read_uintptr (adjust m addr old_begin old_end new_begin max_search vp).1 (addr + j)
        = new_begin + (read_uintptr m (addr + j) - old_begin)
      ∧ ¬ in_old_range old_begin old_end old_end := by
  have hlt : new_begin + (read_uintptr m (addr + j) - old_begin) < PTR_MOD := by
    rcases hmat with ⟨h1, h2⟩
    omega
  have hmod : (new_begin + (read_uintptr m (addr + j) - old_begin)) % PTR_MOD
      = new_begin + (read_uintptr m (addr + j) - old_begin) := Nat.mod_eq_of_lt hlt
  rw [adjust_eq_scan m addr old_begin old_end new_begin max_search vp hb he hn hw,
      adjust_scan_found old_begin old_end new_begin m addr max_search j hj hmat hfirst]
  refine ⟨hmod, ?_, fun hc => lt_irrefl _ hc.2⟩
  rw [read_write_uintptr, Nat.mod_mod_of_dvd, hmod]
  exact dvd_refl _

/-- C1 witness: the spec's planted-pointer example.  `0x70000C` planted at
byte offset 5 of the window `[0x500000, 0x500010)` with source range
`[0x700000, 0x7000A0)` and destination base `0x900000`: the replacement
`0x900000 + (0x70000C - 0x700000) = 0x90000C` is returned and read back
at offset 5. -/
theorem adjust_rewrites_first_match_witness :
    (adjust memC1 0x500000 0x700000 0x7000A0 0x900000 16 true).2
        = 0x900000 + (read_uintptr memC1 (0x500000 + 5) - 0x700000)
      ∧ read_uintptr (adjust memC1 0x500000 0x700000 0x7000A0 0x900000 16 true).1 (0x500000 + 5)
        = 0x900000 + (read_uintptr memC1 (0x500000 + 5) - 0x700000)
      ∧ ¬ in_old_range 0x700000 0x7000A0 0x7000A0 :=
  adjust_rewrites_first_match memC1 0x500000 0x700000 0x7000A0 0x900000 16 true
    (by decide) (by decide) (by decide) (by decide) (by decide)
    5 (by decide) (by decide) (by decide)

/-- C2: the scan is strictly left-to-right, one byte at a time: when
`addr + j` (any byte offset, aligned or not) is the leftmost position of
the window whose pointer-sized read lies in `[old_begin, old_end)` — no
matter what the positions after `j` hold — the result is exactly the
input memory with the one pointer-sized store at `addr + j`, every byte
outside those 4 cells untouched, and the function returns there. -/
theorem adjust_scans_left_to_right
    (m : Mem) (addr old_begin old_end new_begin max_search : Nat) (vp : Bool)
    (hb : old_begin < PTR_MOD) (he : old_end < PTR_MOD) (hn : new_begin < PTR_MOD)
    (hw : addr + max_search < PTR_MOD)
    (j : Nat) (hj : j < max_search)
    (hmat : in_old_range old_begin old_end (read_uintptr m (addr + j)))
    (hfirst : ∀ i, i < j → ¬ in_old_range old_begin old_end (read_uintptr m (addr + i))) :
    adjust m addr old_begin old_end new_begin max_search vp
        = (write_uintptr m (addr + j)
             ((new_begin + (read_uintptr m (addr + j) - old_begin)) % PTR_MOD),
           (new_begin + (read_uintptr m (addr + j) - old_begin)) % PTR_MOD)
      ∧ ∀ x, x < addr + j ∨ addr + j + 3 < x →
          (adjust m addr old_begin old_end new_begin max_search vp).1 x = m x := by
  have h := adjust_eq_scan m addr old_begin old_end new_begin max_search vp hb he hn hw
  rw [adjust_scan_found old_begin old_end new_begin m addr max_search j hj hmat hfirst] at h
  refine ⟨h, fun x hx => ?_⟩
  rw [h]
  exact write_uintptr_frame m (addr + j) _ x hx

/-- C2 witness: the spec's tie-break example.  Matching values planted at
byte offsets 2 (unaligned) and 9 of a 16-byte window: only the offset-2
value is rewritten, every byte outside its 4 cells — in particular the
whole offset-9 value — is untouched. -/
theorem adjust_scans_left_to_right_witness :
    adjust memC2 0x500000 0x700000 0x7000A0 0x900000 16 true
        = (write_uintptr memC2 (0x500000 + 2)
             ((0x900000 + (read_uintptr memC2 (0x500000 + 2) - 0x700000)) % PTR_MOD),
           (0x900000 + (read_uintptr memC2 (0x500000 + 2) - 0x700000)) % PTR_MOD)
      ∧ ∀ x, x < 0x500000 + 2 ∨ 0x500000 + 2 + 3 < x →
          (adjust memC2 0x500000 0x700000 0x7000A0 0x900000 16 true).1 x = memC2 x :=
  adjust_scans_left_to_right memC2 0x500000 0x700000 0x7000A0 0x900000 16 true
    (by decide) (by decide) (by decide) (by decide)
    2 (by decide) (by decide) (by decide)

/-- C3 (amended): when no pointer-sized read in the scan window lies in
`[old_begin, old_end)`, `adjust` performs no write — the resulting memory
is the input memory itself — and returns the null handle, address 0.
(The claim's further clause that this null result is distinguishable from
any successful replacement is refuted by `adjust_null_result_collision`:
a successful replacement can itself be the address 0.) -/
theorem adjust_no_match_returns_null
    (m : Mem) (addr old_begin old_end new_begin max_search : Nat) (vp : Bool)
    (hb : old_begin < PTR_MOD) (he : old_end < PTR_MOD) (haddr : addr < PTR_MOD)
    (h : ∀ i, i < max_search → ¬ in_old_range old_begin old_end (read_uintptr m (addr + i))) :
    (adjust m addr old_begin old_end new_begin max_search vp).1 = m
      ∧ (adjust m addr old_begin old_end new_begin max_search vp).2 = 0 := by
  have hstep : adjust m addr old_begin old_end new_begin max_search vp = (m, 0) := by
    show adjust_scan (old_begin % PTR_MOD) (old_end % PTR_MOD) (new_begin % PTR_MOD)
        m (addr % PTR_MOD) ((addr + max_search) % PTR_MOD - addr % PTR_MOD) = _
    rw [Nat.mod_eq_of_lt hb, Nat.mod_eq_of_lt he, Nat.mod_eq_of_lt haddr]
    refine adjust_scan_no_match old_begin old_end (new_begin % PTR_MOD) m addr _
      fun i hi => ?_
    refine h i ?_
    have hle : (addr + max_search) % PTR_MOD ≤ addr + max_search := Nat.mod_le _ _
    omega
  rw [hstep]
  exact ⟨rfl, rfl⟩

/-- C3 witness: scanning 12 zero bytes for the source range
`[0x700000, 0x7000A0)` changes nothing and returns the null address. -/
theorem adjust_no_match_returns_null_witness :
    (adjust mzero 0x500000 0x700000 0x7000A0 0x900000 12 true).1 = mzero
      ∧ (adjust mzero 0x500000 0x700000 0x7000A0 0x900000 12 true).2 = 0 :=
  adjust_no_match_returns_null mzero 0x500000 0x700000 0x7000A0 0x900000 12 true
    (by decide) (by decide) (by decide) (by decide)

/-- C3 counterexample: the no-match null result is not distinguishable
from every successful replacement.  With `new_begin = 0` and the value
`old_begin` itself planted at the scan start, `adjust` matches, rewrites
the position (the byte at `0x500002` changes from `0x70` to `0`) and
returns `0 + (0x700000 - 0x700000) = 0` — exactly the value returned by
the run on all-zero memory that matches nothing. -/
theorem adjust_null_result_collision :
    (adjust mzero 0x500000 0x700000 0x7000A0 0 12 true).2
      = (adjust memC3 0x500000 0x700000 0x7000A0 0 12 true).2
    ∧ (adjust memC3 0x500000 0x700000 0x7000A0 0 12 true).1 0x500002 ≠ memC3 0x500002
    ∧ (adjust mzero 0x500000 0x700000 0x7000A0 0 12 true).2 = 0 := by
  refine ⟨by decide, by decide, by decide⟩

/-- C4: guard construction.  With `size = 0` the guard comes out inactive
and no OS call at all is performed; with `size ≠ 0` exactly one OS
unprotect call is made, after which the guard is inactive when the call
failed, and active — holding the requested address and size and the
returned protection token — when it succeeded. -/
theorem scoped_unprotect_construct_cases (os : OSModel) (addr size : Nat) :
    (size = 0 → (scoped_unprotect.construct os addr size).1.unprotected = false
      ∧ (scoped_unprotect.construct os addr size).2 = [])
    ∧ (size ≠ 0 → (os.unprot addr size).1 = false →
        (scoped_unprotect.construct os addr size).1.unprotected = false)
    ∧ (size ≠ 0 → (os.unprot addr size).1 = true →
        (scoped_unprotect.construct os addr size).1.unprotected = true
        ∧ (scoped_unprotect.construct os addr size).1.size = size
        ∧ (scoped_unprotect.construct os addr size).1.addr = addr
        ∧ (scoped_unprotect.construct os addr size).1.oldprot = (os.unprot addr size).2) := by
  refine ⟨fun h => ?_, fun h hf => ?_, fun h ht => ?_⟩ <;>
    simp_all [scoped_unprotect.construct, scoped_unprotect.unprotected]

/-- C5: release (`restore`) is idempotent and restoration happens at most
once.  After one `restore` the guard reports inactive, a second `restore`
performs no OS call, the two together perform at most one reprotect call
(so the stored token is never applied twice), and destroying the guard
after a `restore` performs no OS call either. -/
theorem scoped_unprotect_release_idempotent (g : scoped_unprotect) :
    g.restore.1.restore.2 = []
    ∧ g.restore.1.unprotected = false
    ∧ (g.restore.2 ++ g.restore.1.restore.2).length ≤ 1
    ∧ g.restore.1.destruct = [] := by
  by_cases h : g.size = 0 <;>
    simp [scoped_unprotect.restore, scoped_unprotect.unprotected,
      scoped_unprotect.destruct, h]

/-- C6: move semantics.  Move construction from `g1` yields a destination
holding exactly `g1`'s former (address, size, token) state — in
particular its activity flag — a deactivated source, and performs no OS
call; destroying the moved-from source afterwards performs no OS call
either.  Move assignment of `g1` into `g2` likewise transfers `g1`'s
state and deactivates the source, and the OS calls it performs are
exactly the destination's own prior restoration. -/
theorem scoped_unprotect_move_semantics (g1 g2 : scoped_unprotect) :
    ((scoped_unprotect.move_construct g1).1 = g1
    ∧ (scoped_unprotect.move_construct g1).1.unprotected = g1.unprotected
    ∧ (scoped_unprotect.move_construct g1).2.1.unprotected = false
    ∧ (scoped_unprotect.move_construct g1).2.2 = []
    ∧ (scoped_unprotect.move_construct g1).2.1.destruct = [])
    ∧ ((scoped_unprotect.move_assign g2 g1).1 = g1
    ∧ (scoped_unprotect.move_assign g2 g1).2.1.unprotected = false
    ∧ (scoped_unprotect.move_assign g2 g1).2.1.destruct = []
    ∧ (scoped_unprotect.move_assign g2 g1).2.2 = g2.restore.2) := by
  simp [scoped_unprotect.move_construct, scoped_unprotect.move_assign,
    scoped_unprotect.restore, scoped_unprotect.unprotected,
    scoped_unprotect.destruct]

/-- C7: the free functions `unprotect(addr, size, oldprot)` and
`reprotect(addr, size, oldprot)` do store the OS token through the output
parameter, but their bodies contain no return statement, so the `bool`
they are declared to return is undefined — in particular it is not the
OS call's success flag, contradicting their own doc comments ("Returns
whether the unprotection/reprotection was successful"). -/
theorem free_unprotect_reprotect_missing_return
    (os : OSModel) (addr size oldprot : Nat) :
    (free_unprotect os addr size).1.oldprot = (os.unprot addr size).2
    ∧ (free_unprotect os addr size).1.ret = none
    ∧ (free_unprotect os addr size).1.ret ≠ some (os.unprot addr size).1
    ∧ (free_reprotect os addr size oldprot).1 = none
    ∧ (free_reprotect os addr size oldprot).1 ≠ some (os.reprot addr size oldprot) := by
  simp [free_unprotect, free_reprotect]

/-- C9: conversion is the identity on the canonical handle.
`into_ptr` on a `raw_ptr` returns the handle itself (the registered
`conv_pointer<raw_ptr>` rule is `return x;`), and `faster_ptr` — as its
body evidently intends, the written body being ill-formed (undeclared
`T`) — likewise returns the handle itself. -/
theorem into_ptr_faster_ptr_identity (h : raw_ptr) :
    into_ptr h = h ∧ faster_ptr h = h := ⟨rfl, rfl⟩

/-- C10: `forget` deactivates the guard without any OS call and
permanently disowns the region: after `forget` the guard reports
inactive, destroying it performs no reprotect call, a subsequent
`restore` performs no reprotect call either and leaves the state as
`forget` left it — the region is never reprotected. -/
theorem scoped_unprotect_forget_disowns (g : scoped_unprotect) :
    g.forget.unprotected = false
    ∧ g.forget.destruct = []
    ∧ g.forget.restore.2 = []
    ∧ g.forget.restore.1 = g.forget := by
  simp [scoped_unprotect.forget, scoped_unprotect.unprotected,
    scoped_unprotect.destruct, scoped_unprotect.restore]

/-- C8 counterexample: the default scan-window length is 12 bytes
(`_INJECTOR_OP_MAXSIZE - 3`), not the claim's "one byte less than the
maximum instruction size minus the pointer-sized operand", which is
`15 - 4 - 1 = 10` on the 32-bit target. -/
theorem adjust_default_max_search_cex :
    adjust_default_max_search = 12
    ∧ _INJECTOR_OP_MAXSIZE - PTR_BYTES - 1 = 10
    ∧ adjust_default_max_search ≠ _INJECTOR_OP_MAXSIZE - PTR_BYTES - 1 := by
  refine ⟨rfl, rfl, by decide⟩

/-- C8 (amended): a call of `adjust` that omits `max_search` scans a
window of `_INJECTOR_OP_MAXSIZE - 3 = 12` bytes — three less than the
15-byte maximum single-instruction size, i.e. one byte MORE than the
maximum instruction size minus the 4-byte address-sized operand. -/
theorem adjust_default_max_search_eq :
    adjust_default_max_search = _INJECTOR_OP_MAXSIZE - 3
    ∧ adjust_default_max_search = 12
    ∧ adjust_default_max_search = _INJECTOR_OP_MAXSIZE - PTR_BYTES + 1
    ∧ ∀ (m : Mem) (addr old_begin old_end new_begin : Nat) (vp : Bool),
        adjust_default m addr old_begin old_end new_begin vp
          = adjust m addr old_begin old_end new_begin 12 vp := by
  exact ⟨rfl, rfl, rfl, fun _ _ _ _ _ _ => rfl⟩
